import Mathlib

/-!
# Verification of the Argus Intelligence Platform core against its specification

Shallow embedding of the claim-relevant parts of the backend
(`src/backend/app`): the chunking utilities (`utils/text_utils.py`), the
search engine (`core/search_engine.py`), the pattern detector
(`core/pattern_detector.py`) and the document processor
(`core/document_processor.py`).

Modelling conventions:
* Texts are modelled by their whitespace-token lists (`List String`): Python's
  `str.split()` splits on whitespace runs and drops empties, so a chunk string
  is determined (up to whitespace) by its token list, token counts are list
  lengths, and both `" ".join` and `"\n\n".join` correspond to concatenation
  of token lists (space and blank line are both whitespace).
* Machine floats carrying similarity scores are modelled as exact rationals
  (`ℚ`); Python's `round(x, 4)` is modelled as exact round-half-to-even at
  4 decimal places.
* Fallible external calls (embedding service, ChromaDB collection, SQLAlchemy
  queries) enter as explicit `Except String` / oracle parameters; a raised
  exception is the `.error` case.
* Python's `x or default` truthiness defaulting on integers maps `0` to the
  configured default.
-/

/-- `settings.CHUNK_SIZE` from `app/config.py`. -/
def CHUNK_SIZE : ℕ := 1000

/-- `settings.CHUNK_OVERLAP` from `app/config.py`. -/
def CHUNK_OVERLAP : ℕ := 100

/-! ## `utils/text_utils.py` -/

/-- The `while start < len(words)` loop of `chunk_text`
(`text_utils.py` lines 29-40), fuel-indexed so that the (possibly
non-terminating) loop is a total Lean function: `none` means the fuel was
exhausted before the loop finished.  Each iteration emits
`words[start : start + chunk_size]` and sets `start = end - overlap`;
natural-number truncated subtraction stands in for Python's negative index in
the divergent regime `overlap > start + chunk_size` (in both cases the loop
counter never reaches `len(words)`, which is all that is observable). -/
def chunkTextAux (words : List String) (chunk_size overlap : ℕ) :
    ℕ → ℕ → Option (List (List String))
  | 0, _ => none
  | fuel + 1, start =>
    if start < words.length then
      let chunk_words := (words.drop start).take chunk_size
      match chunkTextAux words chunk_size overlap fuel (start + chunk_size - overlap) with
      | none => none
      | some rest => some (chunk_words :: rest)
    else
      some []

/-- `chunk_text` (`text_utils.py` lines 23-40) after the `or`-defaulting of
its arguments: short inputs are returned whole, longer inputs go through the
sliding-window loop.  The fuel `words.length + 1` is sufficient whenever the
loop terminates at all (the window start grows by at least one per
iteration when `overlap < chunk_size`). -/
def chunkTextCore (words : List String) (chunk_size overlap : ℕ) :
    Option (List (List String)) :=
  if words.length ≤ chunk_size then
    some [words]
  else
    chunkTextAux words chunk_size overlap (words.length + 1) 0

/-- `chunk_text` (`text_utils.py` lines 8-40): the argument defaulting
`chunk_size or settings.CHUNK_SIZE` / `overlap or settings.CHUNK_OVERLAP`
(lines 20-21, Python truthiness: `0` is replaced by the default), then the
word-based chunking. -/
def chunkText (words : List String) (chunk_size overlap : ℕ) :
    Option (List (List String)) :=
  let cs := if chunk_size = 0 then CHUNK_SIZE else chunk_size
  let ov := if overlap = 0 then CHUNK_OVERLAP else overlap
  chunkTextCore words cs ov

/-- The paragraph loop of `chunk_text_by_paragraphs`
(`text_utils.py` lines 59-94), written as structural recursion over the
paragraph list.  State: `chunks` already emitted, `current` the accumulated
paragraph group, `size` its token count.  A paragraph is a token list
(already stripped: a whitespace-only paragraph is `[]` and is skipped).
`"\n\n".join(current)` is token-level concatenation `current.flatten`.
The embedded call `chunk_text(para, chunk_size=chunk_size, overlap=100)`
(line 78) can diverge (when `chunk_size ≤ 100`), hence the `Option`. -/
def ctbpGo (cs : ℕ) :
    List (List String) → List (List String) → List (List String) → ℕ →
    Option (List (List String))
  | [], chunks, current, _ =>
    -- trailing `if current_chunk: chunks.append(...)` (lines 91-92)
    some (if current = [] then chunks else chunks ++ [current.flatten])
  | para :: rest, chunks, current, size =>
    if para = [] then
      -- `if not para: continue`
      ctbpGo cs rest chunks current size
    else if cs < para.length then
      -- `if para_size > chunk_size`: flush, then split the large paragraph
      let chunks' := if current = [] then chunks else chunks ++ [current.flatten]
      match chunkText para cs 100 with
      | none => none
      | some para_chunks => ctbpGo cs rest (chunks' ++ para_chunks) [] 0
    else if cs < size + para.length ∧ current ≠ [] then
      -- `if current_size + para_size > chunk_size and current_chunk`
      ctbpGo cs rest (chunks ++ [current.flatten]) [para] para.length
    else
      ctbpGo cs rest chunks (current ++ [para]) (size + para.length)

/-- `chunk_text_by_paragraphs` (`text_utils.py` lines 43-94): the
`chunk_size or settings.CHUNK_SIZE` defaulting (line 54) and the paragraph
accumulation loop.  The input is the paragraph split of the text
(`re.split(r"\n\s*\n", text)`, each paragraph given by its token list). -/
def chunkTextByParagraphs (paragraphs : List (List String)) (chunk_size : ℕ) :
    Option (List (List String)) :=
  let cs := if chunk_size = 0 then CHUNK_SIZE else chunk_size
  ctbpGo cs paragraphs [] [] 0

/-! ## Rounding

`round(x, 4)` in `search_engine.py` line 119 and
`round(..., 2)` in `get_document_summary`.  Python rounds half to even. -/

/-- Python's `round` to the nearest integer: round half to even. -/
def pyRound (q : ℚ) : ℤ :=
  if Int.fract q < 1 / 2 then ⌊q⌋
  else if 1 / 2 < Int.fract q then ⌈q⌉
  else if 2 ∣ ⌊q⌋ then ⌊q⌋ else ⌊q⌋ + 1

/-- Python's `round(x, 4)` (on exact rationals). -/
def round4 (q : ℚ) : ℚ := (pyRound (q * 10000) : ℚ) / 10000

/-! ## Data model (`models/database_models.py`, claim-relevant fields) -/

/-- A row of the `Document` table: the fields the search engine and pattern
detector read.  `title` is nullable. -/
structure Document where
  id : ℕ
  title : Option String
  filename : String
deriving DecidableEq, Repr

/-- A row of the `DocumentChunk` table: the fields the claim-relevant code
reads.  `embedding_id` is null until the chunk is embedded. -/
structure DocumentChunk where
  document_id : ℕ
  chunk_index : ℕ
  chunk_text : String
  embedding_id : Option String
deriving DecidableEq, Repr

/-- `db.query(Document).filter(Document.id == document_id).first()`. -/
def findDocument (db : List Document) (document_id : ℕ) : Option Document :=
  (db.filter (fun d => d.id = document_id)).head?

/-- Python string truthiness on an optional string: `None` and `""` are falsy.
Used for `document.title or document.filename` and
`if chunk.embedding_id` checks. -/
def truthyStr : Option String → Bool
  | none => false
  | some s => ¬ s = ""

/-- `document.title or document.filename` (`search_engine.py` line 115). -/
def titleOrFilename (title : Option String) (filename : String) : String :=
  match title with
  | some s => if s = "" then filename else s
  | none => filename

/-! ## `core/search_engine.py` -/

/-- One hit of the Vector Index response to `vector_store.query`
(`search_engine.py` lines 88-92): parallel entries of `ids`, `distances`,
`metadatas` and `documents`.  The metadata fields are the ones every vector
written by the Document Processor carries (`document_processor.py`
lines 166-172). -/
structure QueryHit where
  chunk_id : String
  distance : ℚ
  document_id : ℕ
  chunk_index : ℕ
  text : String
deriving DecidableEq, Repr

/-- `SearchResult` (`search_engine.py` lines 14-24). -/
structure SearchResult where
  document_id : ℕ
  document_title : String
  document_filename : String
  chunk_text : String
  snippet : String
  relevance_score : ℚ
  chunk_index : ℕ
deriving DecidableEq, Repr

/-- `SearchEngine.search` (`search_engine.py` lines 38-125), given the Vector
Index response `hits` for the embedded query (`n_results = top_k`, optionally
metadata-filtered — both handled by the store).  Per hit: relevance is
`1 - distance/2` rounded to 4 places (lines 94-119); a hit whose document is
missing from the database is skipped (lines 103-107).  `snippet` abstracts
`extract_snippet(chunk_text, query, context_length=150)` (line 110), a
character-level formatting helper no claim refers to. -/
def SearchEngine.search (snippet : String → String → String)
    (db : List Document) (query : String) (hits : List QueryHit) :
    List SearchResult :=
  hits.filterMap fun h =>
    match findDocument db h.document_id with
    | none => none
    | some document =>
      some
        { document_id := h.document_id
          document_title := titleOrFilename document.title document.filename
          document_filename := document.filename
          chunk_text := h.text
          snippet := snippet h.text query
          relevance_score := round4 (1 - h.distance / 2)
          chunk_index := h.chunk_index }

/-- `SearchEngine.get_similar_chunks` (`search_engine.py` lines 127-163):
look up the target chunk (first row matching `document_id` and
`chunk_index`); return `[]` when it is absent or its `embedding_id` is falsy;
otherwise run `search` with the chunk text as the query and
`top_k = top_k + 5` ("Get extra to filter out same document", line 162) —
`hits` is the Vector Index response to that over-fetched query.  The search
result is returned as-is (the source contains no same-document filter and no
truncation to `top_k`). -/
def SearchEngine.getSimilarChunks (snippet : String → String → String)
    (db : List Document) (chunkTable : List DocumentChunk)
    (document_id chunk_index : ℕ) (top_k : ℕ) (hits : List QueryHit) :
    List SearchResult :=
  match (chunkTable.filter fun c =>
      c.document_id = document_id ∧ c.chunk_index = chunk_index).head? with
  | none => []
  | some chunk =>
    if truthyStr chunk.embedding_id then
      SearchEngine.search snippet db chunk.chunk_text hits
    else
      []

/-! ## `core/pattern_detector.py` -/

/-- `self.similarity_threshold = 0.7` (`pattern_detector.py` line 19). -/
def similarity_threshold : ℚ := 7 / 10

/-- `self.min_cluster_size = 2` (line 20). -/
def min_cluster_size : ℕ := 2

/-- `self.max_clusters = 10` (line 21). -/
def max_clusters : ℕ := 10

/-- Metadata of one vector as seen by the pattern detector
(`metadata.get("document_id")`, `metadata.get("filename", "Unknown")`).
`document_id` is present on every vector the Document Processor writes;
`filename` is optional (in fact the processor never writes it). -/
structure PDMeta where
  document_id : ℕ
  filename : Option String
deriving DecidableEq, Repr

/-- One entry of the list returned by `detect_similar_documents`
(`pattern_detector.py` lines 100-107). -/
structure SimilarDoc where
  document_id : ℕ
  filename : String
  similarity : ℚ
  matching_chunks : ℕ
deriving DecidableEq, Repr

/-- One bucket of `doc_similarities` / `doc_metadata`
(`pattern_detector.py` lines 76-94): the per-document similarity list in
insertion order, with the first-seen metadata. -/
structure PDGroup where
  document_id : ℕ
  metadata : PDMeta
  similarities : List ℚ
deriving DecidableEq, Repr

/-- `doc_similarities[other_doc_id].append(similarity)` with first-seen
metadata registration (lines 90-94); Python dicts preserve insertion order. -/
def addSimilarity (groups : List PDGroup) (m : PDMeta) (sim : ℚ) : List PDGroup :=
  if groups.any (fun g => g.document_id = m.document_id) then
    groups.map fun g =>
      if g.document_id = m.document_id then
        { g with similarities := g.similarities ++ [sim] }
      else g
  else
    groups ++ [⟨m.document_id, m, [sim]⟩]

/-- The grouping loop of `detect_similar_documents` (lines 79-94): skip hits
of the queried document, convert distance to similarity as `1 - distance`
(line 86), drop similarities below the threshold, group the rest by owning
document. -/
def groupHits (document_id : ℕ) (hits : List (PDMeta × ℚ)) : List PDGroup :=
  hits.foldl
    (fun groups h =>
      if h.1.document_id = document_id then groups
      else
        let similarity := 1 - h.2
        if similarity < similarity_threshold then groups
        else addSimilarity groups h.1 similarity)
    []

/-- `PatternDetector.detect_similar_documents` (`pattern_detector.py`
lines 23-115).  `collectionGet` is the outcome of
`collection.get(ids=[chunk_ids[0]], include=["embeddings"])["embeddings"]`
and `collectionQuery` the outcome of
`collection.query(..., n_results=top_k * 5)` as zipped
`(metadata, distance)` pairs; a raised ChromaDB exception is the `.error`
case, which the `except` at lines 113-115 converts to `[]` (an empty list —
the function's payload has no `error` field).  Per-document similarity is the
mean of the kept per-hit similarities; the result is sorted by similarity
descending (`list.sort` is stable; modelled by the stable
`List.insertionSort`) and truncated to `top_k`. -/
def PatternDetector.detectSimilarDocuments (db : List Document)
    (chunkTable : List DocumentChunk) (document_id : ℕ) (top_k : ℕ)
    (collectionGet : Except String (List (List ℚ)))
    (collectionQuery : Except String (List (PDMeta × ℚ))) : List SimilarDoc :=
  match findDocument db document_id with
  | none => []
  | some _ =>
    let chunks := chunkTable.filter fun c => c.document_id = document_id
    if chunks = [] then []
    else
      let chunk_ids := chunks.filterMap fun c =>
        if truthyStr c.embedding_id then c.embedding_id else none
      if chunk_ids = [] then []
      else
        match collectionGet with
        | .error _ => []
        | .ok embeddings =>
          if embeddings = [] then []
          else
            match collectionQuery with
            | .error _ => []
            | .ok hits =>
              let similar_docs := (groupHits document_id hits).map fun g =>
                ({ document_id := g.document_id
                   filename := g.metadata.filename.getD "Unknown"
                   similarity := g.similarities.sum / g.similarities.length
                   matching_chunks := g.similarities.length } : SimilarDoc)
              (List.insertionSort
                (fun a b => b.similarity ≤ a.similarity) similar_docs).take top_k

/-- One entry of the list returned by `suggest_connections`
(`pattern_detector.py` lines 305-315).  The `reason` field (an f-string
embedding the similarity as a percentage) is presentation-only and carried by
no claim; it is omitted from the model. -/
structure Connection where
  source_document_id : ℕ
  target_document_id : ℕ
  connection_type : String
  strength : ℚ
  confidence : String
  matching_chunks : ℕ
deriving DecidableEq, Repr

/-- `PatternDetector.suggest_connections` (`pattern_detector.py`
lines 282-317): `similar_docs` is the result of the embedded call
`self.detect_similar_documents(document_id, db, top_k=10)` (line 299); the
function has no try/except of its own. -/
def PatternDetector.suggestConnections (document_id : ℕ)
    (threshold : Option ℚ) (similar_docs : List SimilarDoc) : List Connection :=
  let t := threshold.getD similarity_threshold
  similar_docs.filterMap fun doc =>
    if t ≤ doc.similarity then
      some
        { source_document_id := document_id
          target_document_id := doc.document_id
          connection_type := "semantic_similarity"
          strength := doc.similarity
          confidence := if (85 / 100 : ℚ) < doc.similarity then "high" else "medium"
          matching_chunks := doc.matching_chunks }
    else none

/-- A member document summary inside a cluster (`pattern_detector.py`
lines 175-181). -/
structure ClusterDocument where
  id : ℕ
  filename : String
  title : String
deriving DecidableEq, Repr

/-- One cluster of `cluster_documents` (lines 211-218). -/
structure ClusterInfo where
  cluster_id : ℕ
  documents : List ClusterDocument
  size : ℕ
  centroid : List ℚ
deriving DecidableEq, Repr

/-- One theme of `cluster_documents` (lines 257-263). -/
structure ThemeInfo where
  cluster_id : ℕ
  theme_name : String
  document_count : ℕ
deriving DecidableEq, Repr

/-- The payload returned by `cluster_documents` (lines 265-280): on the error
path `error` is set and every other field is zeroed/empty. -/
structure ClusterResult where
  clusters : List ClusterInfo
  themes : List ThemeInfo
  total_documents : ℕ
  n_clusters : ℕ
  error : Option String
deriving DecidableEq, Repr

/-- `PatternDetector.cluster_documents` (`pattern_detector.py`
lines 117-280).  The try-block body runs scikit-learn KMeans on machine
floats with library-version-dependent behaviour, so it is abstracted as its
outcome `body`; what the claims constrain is the `except` handler
(lines 272-280), modelled exactly: a raised exception becomes a payload with
empty `clusters`/`themes`, zero counts and `error` set to the message. -/
def PatternDetector.clusterDocuments (body : Except String ClusterResult) :
    ClusterResult :=
  match body with
  | .ok result => result
  | .error e => ⟨[], [], 0, 0, some e⟩

/-- One entry of `central_documents` (`pattern_detector.py`
lines 364-371). -/
structure NetworkCentralDoc where
  document_id : ℕ
  filename : String
  connections : ℕ
  centrality_score : ℚ
deriving DecidableEq, Repr

/-- One entry of `isolated_documents` (lines 375-378). -/
structure NetworkIsolatedDoc where
  document_id : ℕ
  filename : String
deriving DecidableEq, Repr

/-- The payload returned by `analyze_document_network` (lines 391-408). -/
structure NetworkResult where
  central_documents : List NetworkCentralDoc
  isolated_documents : List NetworkIsolatedDoc
  network_density : ℚ
  total_connections : ℕ
  total_documents : ℕ
  error : Option String
deriving DecidableEq, Repr

/-- One assignment
`similarity_matrix[i, doc_ids.index(sim_doc["document_id"])] = similarity`
of the matrix-building loop (`pattern_detector.py` lines 352-354):
`doc_ids.index` raises `ValueError` when the id is absent (the `none` case,
caught by the operation's `except` handler). -/
def pdMatrixUpdate (doc_ids : List ℕ) (i : ℕ) (M : ℕ → ℕ → ℚ)
    (s : SimilarDoc) : Option (ℕ → ℕ → ℚ) :=
  if s.document_id ∈ doc_ids then
    some fun a b =>
      if a = i ∧ b = doc_ids.indexOf s.document_id then s.similarity
      else M a b
  else none

/-- The matrix-building loop of `analyze_document_network` (lines 348-354):
start from `np.zeros((n, n))`, and for each document index `i` (in order)
perform the assignments for each entry `s` of
`detect_similar_documents(doc_ids[i], db, top_k=n_docs)` (the per-document
results enter as the oracle `detect`). -/
def buildSimilarityMatrix (doc_ids : List ℕ) (detect : ℕ → List SimilarDoc) :
    Option (ℕ → ℕ → ℚ) :=
  doc_ids.enum.foldlM
    (fun M p => (detect p.2).foldlM (pdMatrixUpdate doc_ids p.1) M)
    (fun _ _ => (0 : ℚ))

/-- Row `i` of `np.sum(similarity_matrix > threshold, axis=1)`
(line 357): how many of the `n` columns of row `i` exceed the threshold. -/
def rowCount (n : ℕ) (M : ℕ → ℕ → ℚ) (i : ℕ) : ℕ :=
  ((List.range n).filter fun j => similarity_threshold < M i j).length

/-- `np.sum(similarity_matrix > threshold)` (line 383): the number of
(ordered) matrix entries exceeding the threshold. -/
def matrixCount (n : ℕ) (M : ℕ → ℕ → ℚ) : ℕ :=
  ((List.range n).map (rowCount n M)).sum

/-- A `Document` row used as the out-of-range default of a total list
access (never reached for in-range indices). -/
def dfltDocument : Document := ⟨0, none, ""⟩

/-- `PatternDetector.analyze_document_network` (`pattern_detector.py`
lines 319-408).  `dbDocuments` is the outcome of the query for completed
documents (lines 330-334); `detect` gives, per document id, the result of the
embedded `detect_similar_documents` call (line 351).  Faithful to the source:
fewer than 2 documents short-circuits to zeros (lines 336-343); centrality is
the above-threshold row count; `central_documents` takes the 5 largest
centralities (`np.argsort(centrality)[-5:][::-1]` — argsort's tie order is
implementation-defined, modelled by a stable ascending sort) filtered to
positive centrality; `isolated_documents` are the zero-centrality indices;
`network_density = (count/2) / (n(n-1)/2)` and
`total_connections = int(count/2)` (floor, lines 380-395).  A raised
exception (from the db query or the `ValueError` of `doc_ids.index`) is
converted by the `except` handler (lines 399-408) into a zeroed payload with
`error` set. -/
def PatternDetector.analyzeDocumentNetwork
    (dbDocuments : Except String (List Document))
    (detect : ℕ → List SimilarDoc) : NetworkResult :=
  match dbDocuments with
  | .error e => ⟨[], [], 0, 0, 0, some e⟩
  | .ok documents =>
    if documents.length < 2 then
      ⟨[], [], 0, 0, documents.length, none⟩
    else
      let doc_ids := documents.map (·.id)
      let n_docs := documents.length
      match buildSimilarityMatrix doc_ids detect with
      | none => ⟨[], [], 0, 0, 0, some "ValueError: document id is not in list"⟩
      | some M =>
        let centrality := rowCount n_docs M
        let order :=
          List.insertionSort (fun a b => centrality a ≤ centrality b)
            (List.range n_docs)
        let central_indices := (order.drop (order.length - 5)).reverse
        let central_documents := central_indices.filterMap fun idx =>
          if 0 < centrality idx then
            some
              { document_id := doc_ids.getD idx 0
                filename := (documents.getD idx dfltDocument).filename
                connections := centrality idx
                centrality_score := (centrality idx : ℚ) / n_docs }
          else none
        let isolated_documents :=
          ((List.range n_docs).filter fun idx => centrality idx = 0).map
            fun idx =>
              ({ document_id := doc_ids.getD idx 0
                 filename := (documents.getD idx dfltDocument).filename } :
                NetworkIsolatedDoc)
        let total_possible : ℚ := (n_docs * (n_docs - 1) : ℕ) / 2
        let actual : ℚ := (matrixCount n_docs M : ℚ) / 2
        let density := if 0 < total_possible then actual / total_possible else 0
        ⟨central_documents, isolated_documents, density,
          matrixCount n_docs M / 2, n_docs, none⟩

/-! ## `core/document_processor.py` -/

/-- `DocumentProcessor._generate_embeddings` (`document_processor.py`
lines 129-184), as a state transformer on the chunk rows plus the raised
exception, if any.  `embedBatch` is the outcome of
`self.embedding_service.embed_batch(texts)` (line 153) and `addResult` the
outcome of `self.vector_store.add(...)` (lines 178-180).  The loop at
lines 161-175 runs over `zip(document_chunks, embedding_results)` and sets
`chunk.embedding_id = f"chunk_{document_id}_{chunk_index}"` on each zipped
chunk BEFORE the vector-store add is attempted, and a raised add does not
undo those Python object mutations: on `.error` from `addResult` the rows
keep their assigned embedding ids. -/
def DocumentProcessor.generateEmbeddings (document_chunks : List DocumentChunk)
    (embedBatch : Except String (List (List ℚ)))
    (addResult : Except String Unit) :
    List DocumentChunk × Option String :=
  if document_chunks = [] then (document_chunks, none)
  else
    match embedBatch with
    | .error e => (document_chunks, some e)
    | .ok embedding_results =>
      let k := embedding_results.length
      let mutated :=
        ((document_chunks.take k).map fun c =>
          { c with
            embedding_id :=
              some ("chunk_" ++ toString c.document_id ++ "_" ++
                toString c.chunk_index) }) ++ document_chunks.drop k
      match addResult with
      | .error e => (mutated, some e)
      | .ok _ => (mutated, none)

/-- The chunk-creation and embedding steps of
`DocumentProcessor.process_document` (`document_processor.py` lines 68-96):
create one `DocumentChunk` row per chunk text with a null embedding id
(lines 69-78), run `_generate_embeddings` inside the inner `try` whose
`except` swallows the exception (lines 81-86, "Don't fail the whole process
if embeddings fail"), then commit (line 92).  The returned rows are the
document's chunk rows as committed. -/
def DocumentProcessor.processDocumentChunks (document_id : ℕ)
    (chunks_text : List String)
    (embedBatch : Except String (List (List ℚ)))
    (addResult : Except String Unit) : List DocumentChunk :=
  let document_chunks := chunks_text.enum.map fun p =>
    ({ document_id := document_id
       chunk_index := p.1
       chunk_text := p.2
       embedding_id := none } : DocumentChunk)
  (DocumentProcessor.generateEmbeddings document_chunks embedBatch addResult).1

/-- Unordered pairs `i < j < n` whose matrix entry exceeds the threshold:
the "count of above-threshold unordered pairs" of the specification. -/
def pairCount (n : ℕ) (M : ℕ → ℕ → ℚ) : ℕ :=
  ((List.range n).map fun i =>
    ((List.range n).filter fun j => i < j ∧ similarity_threshold < M i j).length).sum

/-- A two-document corpus (both completed) used as a concrete network
input. -/
def networkDocsTwo : List Document := [⟨1, none, "a"⟩, ⟨2, none, "b"⟩]

/-- A one-way `detect_similar_documents` outcome: document 1 sees document 2
at similarity 4/5, but document 2 sees nothing (as happens when the reverse
query's hits fall below the threshold or outside the over-fetch window). -/
def detectOneWay : ℕ → List SimilarDoc := fun id =>
  if id = 1 then [⟨2, "b", 4 / 5, 1⟩] else []

/-- A mutual (symmetric) `detect_similar_documents` outcome between
documents 1 and 2 at similarity 4/5. -/
def detectMutual : ℕ → List SimilarDoc := fun id =>
  if id = 1 then [⟨2, "b", 4 / 5, 1⟩]
  else if id = 2 then [⟨1, "a", 4 / 5, 1⟩] else []

/-! ## Lemmas about the chunker -/

lemma chunkTextAux_length_le (words : List String) (cs ov : ℕ) :
    ∀ fuel start out, chunkTextAux words cs ov fuel start = some out →
      ∀ c ∈ out, c.length ≤ cs := by
  intro fuel
  induction fuel with
  | zero => intro start out h; simp [chunkTextAux] at h
  | succ n ih =>
    intro start out h c hc
    simp only [chunkTextAux] at h
    split at h
    · cases hrec : chunkTextAux words cs ov n (start + cs - ov) with
      | none => rw [hrec] at h; simp at h
      | some rest =>
        rw [hrec] at h
        simp only [Option.some.injEq] at h
        subst h
        rcases List.mem_cons.mp hc with hc | hc
        · subst hc
          simp [List.length_take]
        · exact ih _ _ hrec c hc
    · simp only [Option.some.injEq] at h
      subst h
      simp at hc

lemma chunkTextCore_length_le (words : List String) (cs ov : ℕ) (out : List (List String))
    (h : chunkTextCore words cs ov = some out) : ∀ c ∈ out, c.length ≤ cs := by
  unfold chunkTextCore at h
  split at h
  · simp only [Option.some.injEq] at h
    subst h
    intro c hc
    simp only [List.mem_singleton] at hc
    subst hc
    omega
  · exact chunkTextAux_length_le words cs ov _ _ _ h

lemma chunkText_length_le (words : List String) (cs ov : ℕ) (hcs : 0 < cs)
    (out : List (List String)) (h : chunkText words cs ov = some out) :
    ∀ c ∈ out, c.length ≤ cs := by
  unfold chunkText at h
  rw [if_neg (by omega)] at h
  exact chunkTextCore_length_le words cs _ out h

lemma chunkTextAux_isSome (words : List String) (cs ov : ℕ) (hov : ov < cs) :
    ∀ fuel start, words.length - start < fuel →
      (chunkTextAux words cs ov fuel start).isSome := by
  intro fuel
  induction fuel with
  | zero => intro start h; omega
  | succ n ih =>
    intro start h
    simp only [chunkTextAux]
    split
    · have h2 := ih (start + cs - ov) (by omega)
      cases hrec : chunkTextAux words cs ov n (start + cs - ov) with
      | none => rw [hrec] at h2; simp at h2
      | some rest => simp [hrec]
    · simp

lemma chunkTextAux_none (words : List String) (cs ov : ℕ) (hov : cs ≤ ov) :
    ∀ fuel start, start < words.length →
      chunkTextAux words cs ov fuel start = none := by
  intro fuel
  induction fuel with
  | zero => intro start _; simp [chunkTextAux]
  | succ n ih =>
    intro start hstart
    simp only [chunkTextAux]
    rw [if_pos hstart]
    rw [ih (start + cs - ov) (by omega)]

lemma chunkTextCore_isSome (words : List String) (cs ov : ℕ) (hov : ov < cs) :
    (chunkTextCore words cs ov).isSome := by
  unfold chunkTextCore
  split
  · simp
  · exact chunkTextAux_isSome words cs ov hov _ 0 (by omega)

lemma chunkText_isSome_of_lt (words : List String) (cs : ℕ) (hcs : 100 < cs) :
    (chunkText words cs 100).isSome := by
  unfold chunkText
  rw [if_neg (by omega), if_neg (by omega)]
  exact chunkTextCore_isSome words cs 100 hcs

lemma ctbpGo_isSome (cs : ℕ) (hcs : 100 < cs) :
    ∀ (paras chunks current : List (List String)) (size : ℕ),
      (ctbpGo cs paras chunks current size).isSome := by
  intro paras
  induction paras with
  | nil => intro chunks current size; simp [ctbpGo]
  | cons para rest ih =>
    intro chunks current size
    simp only [ctbpGo]
    split
    · exact ih chunks current size
    · split
      · have h := chunkText_isSome_of_lt para cs hcs
        cases hct : chunkText para cs 100 with
        | none => rw [hct] at h; simp at h
        | some pcs => simpa [hct] using ih _ [] 0
      · split
        · exact ih _ [para] para.length
        · exact ih chunks (current ++ [para]) (size + para.length)

lemma ctbpGo_length_le (cs : ℕ) (hcs : 0 < cs) :
    ∀ (paras chunks current : List (List String)) (size : ℕ)
      (out : List (List String)),
      (∀ c ∈ chunks, c.length ≤ cs) →
      size = current.flatten.length →
      current.flatten.length ≤ cs →
      ctbpGo cs paras chunks current size = some out →
      ∀ c ∈ out, c.length ≤ cs := by
  intro paras
  induction paras with
  | nil =>
    intro chunks current size out hch hsz hcur h c hc
    simp only [ctbpGo, Option.some.injEq] at h
    subst h
    split at hc
    · exact hch c hc
    · rcases List.mem_append.mp hc with hc | hc
      · exact hch c hc
      · simp only [List.mem_singleton] at hc
        subst hc
        exact hcur
  | cons para rest ih =>
    intro chunks current size out hch hsz hcur h c hc
    simp only [ctbpGo] at h
    split at h
    · exact ih chunks current size out hch hsz hcur h c hc
    · rename_i hpe
      split at h
      · rename_i hbig
        cases hct : chunkText para cs 100 with
        | none => rw [hct] at h; simp at h
        | some pcs =>
          rw [hct] at h
          simp only at h
          refine ih _ [] 0 out ?_ (by simp) (by simp) h c hc
          intro c' hc'
          rcases List.mem_append.mp hc' with hc' | hc'
          · split at hc'
            · exact hch c' hc'
            · rcases List.mem_append.mp hc' with hc' | hc'
              · exact hch c' hc'
              · simp only [List.mem_singleton] at hc'
                subst hc'
                exact hcur
          · exact chunkText_length_le para cs 100 hcs pcs hct c' hc'
      · rename_i hsmall
        split at h
        · rename_i hflush
          refine ih _ [para] para.length out ?_ (by simp) (by simp; omega) h c hc
          intro c' hc'
          rcases List.mem_append.mp hc' with hc' | hc'
          · exact hch c' hc'
          · simp only [List.mem_singleton] at hc'
            subst hc'
            exact hcur
        · rename_i hnoflush
          refine ih chunks (current ++ [para]) (size + para.length) out hch
            (by simp [hsz]) ?_ h c hc
          rw [not_and_or] at hnoflush
          rcases hnoflush with hle | hne
          · simp only [List.flatten_append, List.length_append, List.flatten_cons,
              List.flatten_nil, List.append_nil]
            omega
          · push_neg at hne
            simp only [hne, List.flatten_nil, List.length_nil] at hsz ⊢
            simp only [List.nil_append, List.flatten_cons, List.flatten_nil,
              List.append_nil]
            omega

lemma ctbpGo_small (cs : ℕ) :
    ∀ (paras chunks current : List (List String)) (size : ℕ),
      (∀ p ∈ current, p ≠ []) →
      size = current.flatten.length →
      size + paras.flatten.length ≤ cs →
      ctbpGo cs paras chunks current size =
        some (if (current.flatten ++ paras.flatten) = [] then chunks
          else chunks ++ [current.flatten ++ paras.flatten]) := by
  intro paras
  induction paras with
  | nil =>
    intro chunks current size hnn hsz hle
    simp only [ctbpGo, List.flatten_nil, List.append_nil]
    cases current with
    | nil => simp
    | cons p t =>
      have hp : p ≠ [] := hnn p (by simp)
      have hfl : (p :: t).flatten ≠ [] := by
        simp only [List.flatten_cons, ne_eq, List.append_eq_nil]
        tauto
      rw [if_neg (by simp), if_neg hfl]
  | cons para rest ih =>
    intro chunks current size hnn hsz hle
    simp only [List.flatten_cons, List.length_append] at hle
    simp only [ctbpGo]
    split
    · rename_i hpe
      subst hpe
      rw [ih chunks current size hnn hsz (by simpa using hle)]
      simp
    · rename_i hpe
      rw [if_neg (by omega), if_neg (by rw [not_and_or]; left; omega)]
      rw [ih chunks (current ++ [para]) (size + para.length)
        (by intro p hp
            rcases List.mem_append.mp hp with hp | hp
            · exact hnn p hp
            · have hpp : p = para := by simpa using hp
              rw [hpp]; exact hpe) (by subst hsz; simp)
        (by omega)]
      congr 1
      simp [List.append_assoc]

lemma chunkTextAux_getElem (words : List String) (cs ov : ℕ) (hov : ov < cs) :
    ∀ fuel start out, chunkTextAux words cs ov fuel start = some out →
      ∀ i (hi : i < out.length),
        out.get ⟨i, hi⟩ = (words.drop (start + i * (cs - ov))).take cs ∧
        start + i * (cs - ov) < words.length := by
  intro fuel
  induction fuel with
  | zero => intro start out h; simp [chunkTextAux] at h
  | succ n ih =>
    intro start out h i hi
    simp only [chunkTextAux] at h
    split at h
    · rename_i hstart
      cases hrec : chunkTextAux words cs ov n (start + cs - ov) with
      | none => rw [hrec] at h; simp at h
      | some rest =>
        rw [hrec] at h
        simp only [Option.some.injEq] at h
        subst h
        cases i with
        | zero => simpa using hstart
        | succ j =>
          have hj : j < rest.length := by simpa using hi
          have := ih (start + cs - ov) rest hrec j hj
          have harith : start + cs - ov + j * (cs - ov) = start + (j + 1) * (cs - ov) := by
            rw [Nat.succ_mul]
            omega
          rw [harith] at this
          simpa using this
    · simp only [Option.some.injEq] at h
      subst h
      simp at hi

lemma window_overlap {α : Type} (l : List α) (s cs ov : ℕ) (hov : ov < cs)
    (hs : s + (cs - ov) < l.length) :
    ((l.drop s).take cs).drop (((l.drop s).take cs).length -
        min ov (l.length - (s + (cs - ov)))) =
      ((l.drop (s + (cs - ov))).take cs).take
        (min ov (l.length - (s + (cs - ov)))) := by
  set s' := s + (cs - ov) with hs'
  set k := min ov (l.length - s') with hk
  have hlen1 : ((l.drop s).take cs).length = min cs (l.length - s) := by
    simp [List.length_take, List.length_drop]
  have hlen2 : ((l.drop s').take cs).length = min cs (l.length - s') := by
    simp [List.length_take, List.length_drop]
  have hk1 : k ≤ min cs (l.length - s) := by omega
  have hk2 : k ≤ min cs (l.length - s') := by omega
  have hcrux : min cs (l.length - s) - k = s' - s := by omega
  apply List.ext_getElem
  · simp only [List.length_drop, List.length_take, hlen1, hlen2]
    omega
  · intro m h1 h2
    have hm : m < k := by
      simp only [List.length_drop, hlen1] at h1
      omega
    rw [List.getElem_drop, List.getElem_take, List.getElem_take,
      List.getElem_take, List.getElem_drop, List.getElem_drop]
    congr 1
    omega

/-- C7: for every paragraph input and every positive target size, every chunk
produced by `chunk_text_by_paragraphs` holds at most `target_size`
whitespace-delimited tokens — accumulated paragraph groups stay within the
budget and oversized paragraphs are windowed to at most `target_size` tokens
each.  (The claim's allowance for a single atomic paragraph is vacuous: no
chunk exceeds the bound at all.) -/
theorem C7_paragraph_chunk_size_bound (paragraphs : List (List String))
    (target_size : ℕ) (out : List (List String)) (hcs : 0 < target_size)
    (h : chunkTextByParagraphs paragraphs target_size = some out) :
    ∀ c ∈ out, c.length ≤ target_size := by
  unfold chunkTextByParagraphs at h
  rw [if_neg (by omega)] at h
  exact ctbpGo_length_le target_size hcs paragraphs [] [] 0 out (by simp)
    (by simp) (by simp) h

/-- Witness for C7 at a concrete input: two paragraphs, target size 3. -/
theorem C7_witness :
    0 < 3 ∧
    chunkTextByParagraphs [["a", "b", "c"], ["d"]] 3 =
      some [["a", "b", "c"], ["d"]] ∧
    ∀ c ∈ [["a", "b", "c"], ["d"]], List.length c ≤ 3 :=
  ⟨by decide, by decide,
    C7_paragraph_chunk_size_bound [["a", "b", "c"], ["d"]] 3
      [["a", "b", "c"], ["d"]] (by decide) (by decide)⟩

/-- C8 counterexample: `chunk_text` on 7 tokens with `chunk_size = 5`,
`overlap = 2` produces the windows `[0:5]`, `[3:7]`, `[6:7]`; the last pair
of consecutive windows repeats only 1 token (the final window holds a single
token), not the 2 tokens of overlap the claim promises for every consecutive
pair: the last 2 tokens of `["d","e","f","g"]` are `["f","g"]`, but the next
window is just `["g"]`. -/
theorem C8_counterexample :
    chunkText ["a", "b", "c", "d", "e", "f", "g"] 5 2 =
      some [["a", "b", "c", "d", "e"], ["d", "e", "f", "g"], ["g"]] ∧
    ¬ (["d", "e", "f", "g"].drop (["d", "e", "f", "g"].length - 2) =
        (["g"] : List String).take 2) := by
  decide

/-- C8 (amended): when `chunk_text` splits a token list longer than
`chunk_size` (with `overlap < chunk_size`), window `i` is
`words[i*(chunk_size-overlap) : i*(chunk_size-overlap)+chunk_size]` — each
start advances by `chunk_size - overlap` and each window holds at most
`chunk_size` tokens — and consecutive windows repeat exactly
`min overlap (tokens remaining at the later window's start)` tokens, which is
exactly `overlap` whenever at least `overlap` tokens remain there; only the
trailing, truncated windows repeat fewer. -/
theorem C8_window_structure (words : List String) (cs ov : ℕ)
    (hov : ov < cs) (out : List (List String))
    (h : chunkTextCore words cs ov = some out) (hlong : cs < words.length) :
    (∀ i (hi : i < out.length),
      out.get ⟨i, hi⟩ = (words.drop (i * (cs - ov))).take cs) ∧
    (∀ c ∈ out, c.length ≤ cs) ∧
    (∀ i (hi : i + 1 < out.length),
      ((out.get ⟨i, by omega⟩).drop ((out.get ⟨i, by omega⟩).length -
          min ov (words.length - (i + 1) * (cs - ov))) =
        (out.get ⟨i + 1, hi⟩).take
          (min ov (words.length - (i + 1) * (cs - ov)))) ∧
      ((i + 1) * (cs - ov) + ov ≤ words.length →
        min ov (words.length - (i + 1) * (cs - ov)) = ov)) := by
  have hcore : chunkTextAux words cs ov (words.length + 1) 0 = some out := by
    unfold chunkTextCore at h
    rw [if_neg (by omega)] at h
    exact h
  have hget := chunkTextAux_getElem words cs ov hov _ 0 out hcore
  refine ⟨?_, chunkTextCore_length_le words cs ov out h, ?_⟩
  · intro i hi
    have := (hget i hi).1
    simpa using this
  · intro i hi
    have h1 := hget i (by omega)
    have h2 := hget (i + 1) hi
    have hmul : (i + 1) * (cs - ov) = i * (cs - ov) + (cs - ov) := by
      rw [Nat.succ_mul]
    have hvalid : i * (cs - ov) + (cs - ov) < words.length := by
      have := h2.2
      omega
    constructor
    · rw [h1.1, h2.1]
      simp only [Nat.zero_add]
      rw [hmul]
      exact window_overlap words (i * (cs - ov)) cs ov hov hvalid
    · intro hrem
      omega

/-- Witness for C8 (amended) at the concrete 7-token input with
`chunk_size = 5`, `overlap = 2`. -/
theorem C8_witness :
    2 < 5 ∧
    chunkTextCore ["a", "b", "c", "d", "e", "f", "g"] 5 2 =
      some [["a", "b", "c", "d", "e"], ["d", "e", "f", "g"], ["g"]] ∧
    5 < 7 ∧
    ((∀ i (hi : i < ([["a", "b", "c", "d", "e"], ["d", "e", "f", "g"],
          ["g"]] : List (List String)).length),
      ([["a", "b", "c", "d", "e"], ["d", "e", "f", "g"], ["g"]] :
          List (List String)).get ⟨i, hi⟩ =
        ((["a", "b", "c", "d", "e", "f", "g"] : List String).drop
          (i * (5 - 2))).take 5) ∧
    (∀ c ∈ ([["a", "b", "c", "d", "e"], ["d", "e", "f", "g"], ["g"]] :
        List (List String)), c.length ≤ 5) ∧
    (∀ i (hi : i + 1 < ([["a", "b", "c", "d", "e"], ["d", "e", "f", "g"],
          ["g"]] : List (List String)).length),
      ((([["a", "b", "c", "d", "e"], ["d", "e", "f", "g"], ["g"]] :
          List (List String)).get ⟨i, by omega⟩).drop
          ((([["a", "b", "c", "d", "e"], ["d", "e", "f", "g"], ["g"]] :
            List (List String)).get ⟨i, by omega⟩).length -
          min 2 (7 - (i + 1) * (5 - 2))) =
        (([["a", "b", "c", "d", "e"], ["d", "e", "f", "g"], ["g"]] :
          List (List String)).get ⟨i + 1, hi⟩).take
          (min 2 (7 - (i + 1) * (5 - 2)))) ∧
      ((i + 1) * (5 - 2) + 2 ≤ 7 → min 2 (7 - (i + 1) * (5 - 2)) = 2))) :=
  ⟨by decide, by decide, by decide,
    C8_window_structure ["a", "b", "c", "d", "e", "f", "g"] 5 2 (by decide)
      [["a", "b", "c", "d", "e"], ["d", "e", "f", "g"], ["g"]] (by decide)
      (by decide)⟩

/-- C9: with a positive target size, an input whose paragraphs carry no
tokens yields an empty chunk sequence, and a nonempty input with fewer than
`target_size` tokens in total yields exactly one chunk holding the whole
token sequence (the whitespace-normalized input). -/
theorem C9_degenerate_inputs (paragraphs : List (List String))
    (target_size : ℕ) (hcs : 0 < target_size) :
    (paragraphs.flatten = [] →
      chunkTextByParagraphs paragraphs target_size = some []) ∧
    (paragraphs.flatten ≠ [] → paragraphs.flatten.length < target_size →
      chunkTextByParagraphs paragraphs target_size =
        some [paragraphs.flatten]) := by
  constructor
  · intro hfl
    unfold chunkTextByParagraphs
    rw [if_neg (by omega)]
    rw [ctbpGo_small target_size paragraphs [] [] 0 (by simp) (by simp)
      (by simp [hfl])]
    simp [hfl]
  · intro hne hlt
    unfold chunkTextByParagraphs
    rw [if_neg (by omega)]
    rw [ctbpGo_small target_size paragraphs [] [] 0 (by simp) (by simp)
      (by omega)]
    simp [hne]

/-- Witness for C9: a whitespace-only input and a 3-token input under
target size 10. -/
theorem C9_witness :
    0 < 10 ∧
    ([[], []] : List (List String)).flatten = [] ∧
    chunkTextByParagraphs ([[], []] : List (List String)) 10 = some [] ∧
    ([["x", "y"], ["z"]] : List (List String)).flatten ≠ [] ∧
    ([["x", "y"], ["z"]] : List (List String)).flatten.length < 10 ∧
    chunkTextByParagraphs [["x", "y"], ["z"]] 10 = some [["x", "y", "z"]] :=
  ⟨by decide, by decide,
    (C9_degenerate_inputs ([[], []] : List (List String)) 10 (by decide)).1
      (by decide),
    by decide, by decide,
    (C9_degenerate_inputs [["x", "y"], ["z"]] 10 (by decide)).2 (by decide)
      (by decide)⟩

/-- C10: the sliding-window loop of `chunk_text` terminates for every input
when `overlap < chunk_size` (first conjunct), and the precondition is
necessary: when `overlap >= chunk_size` and the text holds more than
`chunk_size` tokens, the window start never advances and the loop runs out
of any amount of fuel (second conjunct).  Consequently the paragraph
chunker's oversized-paragraph path, which calls `chunk_text` with a fixed
overlap of 100, diverges for `chunk_size ≤ 100` and terminates for
`chunk_size > 100` (third and fourth conjuncts). -/
theorem C10_termination :
    (∀ (words : List String) (cs ov : ℕ), ov < cs →
      (chunkTextCore words cs ov).isSome) ∧
    (∀ (words : List String) (cs ov : ℕ), cs ≤ ov → cs < words.length →
      (∀ fuel, chunkTextAux words cs ov fuel 0 = none) ∧
      chunkTextCore words cs ov = none) ∧
    (∀ (para : List String) (cs : ℕ), 0 < cs → cs ≤ 100 →
      cs < para.length → chunkTextByParagraphs [para] cs = none) ∧
    (∀ (paragraphs : List (List String)) (cs : ℕ), 100 < cs →
      (chunkTextByParagraphs paragraphs cs).isSome) := by
  refine ⟨?_, ?_, ?_, ?_⟩
  · intro words cs ov hov
    exact chunkTextCore_isSome words cs ov hov
  · intro words cs ov hov hlen
    refine ⟨fun fuel => chunkTextAux_none words cs ov hov fuel 0 (by omega), ?_⟩
    unfold chunkTextCore
    rw [if_neg (by omega)]
    exact chunkTextAux_none words cs ov hov _ 0 (by omega)
  · intro para cs hcs hle hlen
    unfold chunkTextByParagraphs
    rw [if_neg (by omega)]
    have hpe : para ≠ [] := by
      intro hp
      rw [hp] at hlen
      simp at hlen
    have hct : chunkText para cs 100 = none := by
      unfold chunkText
      rw [if_neg (by omega), if_neg (by omega)]
      unfold chunkTextCore
      rw [if_neg (by omega)]
      exact chunkTextAux_none para cs 100 hle _ 0 (by omega)
    simp only [ctbpGo]
    rw [if_neg hpe, if_pos hlen, hct]
  · intro paragraphs cs hcs
    unfold chunkTextByParagraphs
    rw [if_neg (by omega)]
    exact ctbpGo_isSome cs hcs paragraphs [] [] 0

/-- Witness for C10 at concrete inputs: `overlap 1 < chunk_size 2`
terminates on 3 tokens; `overlap 3 ≥ chunk_size 2` never terminates on
3 tokens; the paragraph path diverges at `chunk_size 2 ≤ 100` and terminates
at `chunk_size 101`. -/
theorem C10_witness :
    ((1 : ℕ) < 2 ∧ (chunkTextCore ["a", "b", "c"] 2 1).isSome) ∧
    ((2 : ℕ) ≤ 3 ∧ 2 < 3 ∧ chunkTextAux ["a", "b", "c"] 2 3 5 0 = none ∧
      chunkTextCore ["a", "b", "c"] 2 3 = none) ∧
    ((0 : ℕ) < 2 ∧ (2 : ℕ) ≤ 100 ∧ 2 < 3 ∧
      chunkTextByParagraphs [["a", "b", "c"]] 2 = none) ∧
    ((100 : ℕ) < 101 ∧ (chunkTextByParagraphs [["a"]] 101).isSome) :=
  ⟨⟨by decide, C10_termination.1 ["a", "b", "c"] 2 1 (by decide)⟩,
    ⟨by decide, by decide,
      (C10_termination.2.1 ["a", "b", "c"] 2 3 (by decide) (by decide)).1 5,
      (C10_termination.2.1 ["a", "b", "c"] 2 3 (by decide) (by decide)).2⟩,
    ⟨by decide, by decide, by decide,
      C10_termination.2.2.1 ["a", "b", "c"] 2 (by decide) (by decide)
        (by decide)⟩,
    ⟨by decide, C10_termination.2.2.2 [["a"]] 101 (by decide)⟩⟩

/-! ## Lemmas about rounding and the search engine -/

lemma floor_le_pyRound (q : ℚ) : ⌊q⌋ ≤ pyRound q := by
  unfold pyRound
  split
  · exact le_refl _
  · split
    · exact Int.floor_le_ceil q
    · split
      · exact le_refl _
      · omega

lemma pyRound_le_floor_add_one (q : ℚ) : pyRound q ≤ ⌊q⌋ + 1 := by
  unfold pyRound
  split
  · omega
  · split
    · exact Int.ceil_le_floor_add_one q
    · split
      · omega
      · omega

lemma pyRound_mono {q r : ℚ} (h : q ≤ r) : pyRound q ≤ pyRound r := by
  rcases lt_or_eq_of_le (Int.floor_le_floor h) with hf | hf
  · calc pyRound q ≤ ⌊q⌋ + 1 := pyRound_le_floor_add_one q
      _ ≤ ⌊r⌋ := by omega
      _ ≤ pyRound r := floor_le_pyRound r
  · have hfr : Int.fract q ≤ Int.fract r := by
      unfold Int.fract
      rw [hf]
      linarith
    by_cases h2 : Int.fract r < 1 / 2
    · have h1 : Int.fract q < 1 / 2 := lt_of_le_of_lt hfr h2
      unfold pyRound
      rw [if_pos h1, if_pos h2, hf]
    · by_cases h3 : 1 / 2 < Int.fract r
      · have hceil : ⌊r⌋ + 1 ≤ ⌈r⌉ := by
          have hlt : (⌊r⌋ : ℚ) < ⌈r⌉ := by
            have : (⌊r⌋ : ℚ) + 1 / 2 < r := by
              have := Int.floor_add_fract r
              linarith
            have := Int.le_ceil r
            linarith
          exact_mod_cast Int.lt_iff_add_one_le.mp (by exact_mod_cast hlt)
        have : pyRound r = ⌈r⌉ := by
          unfold pyRound
          rw [if_neg (by linarith), if_pos h3]
        rw [this]
        calc pyRound q ≤ ⌊q⌋ + 1 := pyRound_le_floor_add_one q
          _ = ⌊r⌋ + 1 := by rw [hf]
          _ ≤ ⌈r⌉ := hceil
      · have h4 : Int.fract r = 1 / 2 := le_antisymm (not_lt.mp h3) (not_lt.mp h2)
        rcases lt_or_eq_of_le hfr with h5 | h5
        · have h6 : Int.fract q < 1 / 2 := by rw [h4] at h5; exact h5
          have : pyRound q = ⌊q⌋ := by
            unfold pyRound
            rw [if_pos h6]
          rw [this, hf]
          exact floor_le_pyRound r
        · have hqr : q = r := by
            have h7 := Int.floor_add_fract q
            have h8 := Int.floor_add_fract r
            rw [hf, h5] at h7
            linarith
          rw [hqr]

lemma round4_mono {q r : ℚ} (h : q ≤ r) : round4 q ≤ round4 r := by
  unfold round4
  have := pyRound_mono (mul_le_mul_of_nonneg_right h (by norm_num : (0:ℚ) ≤ 10000))
  have hcast : (pyRound (q * 10000) : ℚ) ≤ (pyRound (r * 10000) : ℚ) := by
    exact_mod_cast this
  linarith

lemma round4_zero : round4 0 = 0 := by
  norm_num [round4, pyRound, Int.fract]

lemma round4_one : round4 1 = 1 := by
  norm_num [round4, pyRound, Int.fract]

lemma round4_bounds {q : ℚ} (h0 : 0 ≤ q) (h1 : q ≤ 1) :
    0 ≤ round4 q ∧ round4 q ≤ 1 := by
  constructor
  · have := round4_mono h0
    rw [round4_zero] at this
    exact this
  · have := round4_mono h1
    rw [round4_one] at this
    exact this

lemma search_map_score (snippet : String → String → String)
    (db : List Document) (query : String) (hits : List QueryHit) :
    (SearchEngine.search snippet db query hits).map (fun r => r.relevance_score) =
      (hits.filter fun h => (findDocument db h.document_id).isSome).map
        (fun h => round4 (1 - h.distance / 2)) := by
  induction hits with
  | nil => rfl
  | cons h t ih =>
    cases hf : findDocument db h.document_id with
    | none =>
      simp only [SearchEngine.search, List.filterMap_cons, List.filter_cons, hf,
        Option.isSome_none] at ih ⊢
      simpa using ih
    | some doc =>
      simp only [SearchEngine.search, List.filterMap_cons, List.filter_cons, hf,
        Option.isSome_some] at ih ⊢
      simpa using ih

/-- C5: when the Vector Index response lists distances in ascending order,
each within [0, 2], every returned `SearchResult` has a relevance score in
[0, 1], and the scores are non-increasing across the returned sequence: the
index order is preserved (dropping hits with missing documents keeps a
subsequence) and no secondary re-sort is applied. -/
theorem C5_relevance_bounds_and_order (snippet : String → String → String)
    (db : List Document) (query : String) (hits : List QueryHit)
    (hsort : (hits.map (fun h => h.distance)).Sorted (· ≤ ·))
    (hrange : ∀ h ∈ hits, 0 ≤ h.distance ∧ h.distance ≤ 2) :
    (∀ r ∈ SearchEngine.search snippet db query hits,
      0 ≤ r.relevance_score ∧ r.relevance_score ≤ 1) ∧
    ((SearchEngine.search snippet db query hits).map
        (fun r => r.relevance_score)).Sorted (· ≥ ·) := by
  constructor
  · intro r hr
    obtain ⟨h, hh, hfm⟩ := List.mem_filterMap.mp hr
    cases hf : findDocument db h.document_id with
    | none => rw [hf] at hfm; simp at hfm
    | some doc =>
      rw [hf] at hfm
      simp only [Option.some.injEq] at hfm
      subst hfm
      have hd := hrange h hh
      have h0 : (0 : ℚ) ≤ 1 - h.distance / 2 := by
        rcases hd with ⟨_, hd2⟩
        linarith
      have h1 : 1 - h.distance / 2 ≤ 1 := by
        rcases hd with ⟨hd1, _⟩
        linarith
      exact round4_bounds h0 h1
  · rw [search_map_score]
    have hp : hits.Pairwise (fun a b => a.distance ≤ b.distance) :=
      List.pairwise_map.mp hsort
    have hpf := hp.filter (fun h => (findDocument db h.document_id).isSome)
    apply List.pairwise_map.mpr
    refine hpf.imp ?_
    intro a b hab
    have : 1 - b.distance / 2 ≤ 1 - a.distance / 2 := by linarith
    exact round4_mono this

/-- Witness for C5: two hits at distances 0 and 1 over a one-document
database score [1, 0.5]. -/
theorem C5_witness :
    ((([⟨"c1", 0, 1, 0, "x"⟩, ⟨"c2", 1, 1, 0, "y"⟩] : List QueryHit).map
      (fun h => h.distance)).Sorted (· ≤ ·)) ∧
    (∀ h ∈ ([⟨"c1", 0, 1, 0, "x"⟩, ⟨"c2", 1, 1, 0, "y"⟩] : List QueryHit),
      0 ≤ h.distance ∧ h.distance ≤ 2) ∧
    (∀ r ∈ SearchEngine.search (fun t _ => t) [⟨1, none, "f"⟩] "q"
        [⟨"c1", 0, 1, 0, "x"⟩, ⟨"c2", 1, 1, 0, "y"⟩],
      0 ≤ r.relevance_score ∧ r.relevance_score ≤ 1) ∧
    ((SearchEngine.search (fun t _ => t) [⟨1, none, "f"⟩] "q"
        [⟨"c1", 0, 1, 0, "x"⟩, ⟨"c2", 1, 1, 0, "y"⟩]).map
        (fun r => r.relevance_score)).Sorted (· ≥ ·) := by
  have h1 : (([⟨"c1", 0, 1, 0, "x"⟩, ⟨"c2", 1, 1, 0, "y"⟩] :
      List QueryHit).map (fun h => h.distance)).Sorted (· ≤ ·) := by decide
  have h2 : ∀ h ∈ ([⟨"c1", 0, 1, 0, "x"⟩, ⟨"c2", 1, 1, 0, "y"⟩] :
      List QueryHit), 0 ≤ h.distance ∧ h.distance ≤ 2 := by decide
  obtain ⟨hb, hs⟩ := C5_relevance_bounds_and_order (fun t _ => t)
    [⟨1, none, "f"⟩] "q" [⟨"c1", 0, 1, 0, "x"⟩, ⟨"c2", 1, 1, 0, "y"⟩] h1 h2
  exact ⟨h1, h2, hb, hs⟩

/-- C2: evaluation at the failing input.  For a one-chunk document, when
`embed_batch` succeeds but the Vector Index `add` raises, the chunk row is
kept but its embedding reference is NOT null: `_generate_embeddings` assigns
`chunk.embedding_id = "chunk_1_0"` before calling `vector_store.add`, the
raised add does not undo that object mutation, and the swallowing handler in
`process_document` commits the row as-is — a dangling reference to a vector
that was never stored, contradicting the claim (and spec) that a failed
embedding/index step leaves the embedding reference null.  When instead
`embed_batch` itself raises, the row is kept with a null reference, as the
claim says. -/
theorem C2_add_failure_commits_dangling_embedding_id :
    DocumentProcessor.processDocumentChunks 1 ["hello"]
        (.ok [[(1 : ℚ)]]) (.error "chroma down") =
      [⟨1, 0, "hello", some "chunk_1_0"⟩] ∧
    DocumentProcessor.processDocumentChunks 1 ["hello"]
        (.error "embed failed") (.ok ()) =
      [⟨1, 0, "hello", none⟩] := by
  decide

/-- C3: evaluation at the failing input.  `get_similar_chunks` with
`top_k = 1` on a database holding documents 1 and 2, querying chunk (1, 0),
where the Vector Index returns the target chunk itself (distance 0) and one
hit from document 2: the function returns BOTH hits — the result contains a
hit whose document id equals the queried `document_id` (no same-document
filter is applied, despite the source comment "Get extra to filter out same
document") and has 2 > `top_k` entries (no truncation is applied). -/
theorem C3_no_same_document_filter_no_truncation :
    (SearchEngine.getSimilarChunks (fun t _ => t)
        [⟨1, none, "a.txt"⟩, ⟨2, none, "b.txt"⟩]
        [⟨1, 0, "alpha", some "chunk_1_0"⟩] 1 0 1
        [⟨"chunk_1_0", 0, 1, 0, "alpha"⟩, ⟨"c2", 1, 2, 0, "beta"⟩]).map
      (fun r => r.document_id) = [1, 2] := by
  decide

/-- C4 counterexample: an internal error in `detect_similar_documents`
(the Vector Index query raises) is caught and converted into a PLAIN EMPTY
LIST — a payload with no `error` field at all — not into an error-flagged
payload as the claim asserts for every Pattern Detector operation. -/
theorem C4_counterexample :
    PatternDetector.detectSimilarDocuments [⟨1, none, "a.txt"⟩]
      [⟨1, 0, "alpha", some "chunk_1_0"⟩] 1 5 (.ok [[(1 : ℚ)]])
      (.error "boom") = [] := by
  decide

/-- C4 (amended): `cluster_documents` and `analyze_document_network` convert
a raised internal error into a payload carrying an `error` field alongside
zeroed/empty defaults; `detect_similar_documents` instead swallows the error
into an empty list (no `error` field), for a failing collection query as
well as for a failing embedding lookup; and `suggest_connections`, which has
no handler of its own, consequently yields an empty list too. -/
theorem C4_error_payload_policy :
    (∀ e : String, PatternDetector.clusterDocuments (.error e) =
      ⟨[], [], 0, 0, some e⟩) ∧
    (∀ (e : String) (detect : ℕ → List SimilarDoc),
      PatternDetector.analyzeDocumentNetwork (.error e) detect =
        ⟨[], [], 0, 0, 0, some e⟩) ∧
    (∀ (db : List Document) (chunkTable : List DocumentChunk)
        (document_id top_k : ℕ) (cg : Except String (List (List ℚ)))
        (e : String),
      PatternDetector.detectSimilarDocuments db chunkTable document_id top_k
        cg (.error e) = []) ∧
    (∀ (db : List Document) (chunkTable : List DocumentChunk)
        (document_id top_k : ℕ)
        (cq : Except String (List (PDMeta × ℚ))) (e : String),
      PatternDetector.detectSimilarDocuments db chunkTable document_id top_k
        (.error e) cq = []) ∧
    (∀ (document_id : ℕ) (threshold : Option ℚ),
      PatternDetector.suggestConnections document_id threshold [] = []) := by
  refine ⟨fun e => rfl, fun e detect => rfl, ?_, ?_, fun id t => rfl⟩
  · intro db ct id k cg e
    unfold PatternDetector.detectSimilarDocuments
    cases findDocument db id with
    | none => rfl
    | some d =>
      dsimp only
      split
      · rfl
      · split
        · rfl
        · cases cg with
          | error _ => rfl
          | ok embs =>
            dsimp only
            split
            · rfl
            · rfl
  · intro db ct id k cq e
    unfold PatternDetector.detectSimilarDocuments
    cases findDocument db id with
    | none => rfl
    | some d =>
      dsimp only
      split
      · rfl
      · split
        · rfl
        · rfl

/-- C1 counterexample: the Pattern Detector does NOT use `1 - distance/2`.
On a hit at cosine distance 1/5 it reports similarity `1 - 1/5 = 4/5`
(pattern_detector.py line 86: `similarity = 1 - distance`), while the
claimed system-wide formula would give `1 - (1/5)/2 = 9/10`; the two
disagree.  (At distance 2 the detector would score -1, not the claimed
0.0.) -/
theorem C1_counterexample :
    PatternDetector.detectSimilarDocuments [⟨1, none, "a.txt"⟩]
      [⟨1, 0, "alpha", some "chunk_1_0"⟩] 1 5 (.ok [[(1 : ℚ)]])
      (.ok [(⟨2, none⟩, 1 / 5)]) = [⟨2, "Unknown", 4 / 5, 1⟩] ∧
    ((4 : ℚ) / 5 ≠ 1 - (1 / 5) / 2) := by
  constructor
  · simp only [PatternDetector.detectSimilarDocuments, findDocument, truthyStr,
      groupHits, addSimilarity, similarity_threshold, List.insertionSort,
      List.orderedInsert, List.filter, List.filterMap, List.foldl, List.map]
    norm_num
    decide
  · norm_num

/-- C1 (amended): the two distance-to-similarity conversions differ.  The
Search Engine scores every kept hit as `round4(1 - distance/2)` (first
conjunct, an exact identity over all inputs), while the Pattern Detector's
`detect_similar_documents` scores a hit as `1 - distance` before
thresholding and averaging (second conjunct: a single above-threshold hit
from another document comes back with similarity exactly `1 - distance`).
So distance 0 scores 1.0 in both, but distance 2 would score 0.0 in the
Search Engine and -1 in the Pattern Detector. -/
theorem C1_similarity_conversion :
    (∀ (snippet : String → String → String) (db : List Document)
        (query : String) (hits : List QueryHit),
      (SearchEngine.search snippet db query hits).map
          (fun r => r.relevance_score) =
        (hits.filter fun h => (findDocument db h.document_id).isSome).map
          (fun h => round4 (1 - h.distance / 2))) ∧
    (∀ (db : List Document) (chunkTable : List DocumentChunk)
        (document_id top_k : ℕ) (embeddings : List (List ℚ))
        (m : PDMeta) (d : ℚ) (doc : Document),
      findDocument db document_id = some doc →
      chunkTable.filter (fun c => c.document_id = document_id) ≠ [] →
      (chunkTable.filter (fun c => c.document_id = document_id)).filterMap
        (fun c => if truthyStr c.embedding_id then c.embedding_id else none) ≠
        [] →
      embeddings ≠ [] →
      m.document_id ≠ document_id →
      similarity_threshold ≤ 1 - d →
      0 < top_k →
      PatternDetector.detectSimilarDocuments db chunkTable document_id top_k
        (.ok embeddings) (.ok [(m, d)]) =
        [⟨m.document_id, m.filename.getD "Unknown", 1 - d, 1⟩]) := by
  constructor
  · exact search_map_score
  · intro db chunkTable document_id top_k embeddings m d doc hdoc hchunks
      hids hembs hne hth htk
    unfold PatternDetector.detectSimilarDocuments
    rw [hdoc]
    simp only [if_neg hchunks, if_neg hids, if_neg hembs]
    have hgroup : groupHits document_id [(m, d)] =
        [⟨m.document_id, m, [1 - d]⟩] := by
      unfold groupHits addSimilarity
      simp [hne, not_lt.mpr hth]
    rw [hgroup]
    simp only [List.map]
    have hsim : ([1 - d] : List ℚ).sum / (([1 - d] : List ℚ).length : ℚ) =
        1 - d := by simp
    rw [hsim]
    simp [List.insertionSort, List.orderedInsert]
    cases top_k with
    | zero => omega
    | succ n => simp

/-- Witness for C1 (amended): the search formula at a distance-1 hit and the
detector formula at a distance-1/5 hit. -/
theorem C1_witness :
    ((SearchEngine.search (fun t _ => t) [⟨1, none, "f"⟩] "q"
        [⟨"c1", 1, 1, 0, "x"⟩]).map (fun r => r.relevance_score) =
      (([⟨"c1", 1, 1, 0, "x"⟩] : List QueryHit).filter
          (fun h => (findDocument [⟨1, none, "f"⟩] h.document_id).isSome)).map
        (fun h => round4 (1 - h.distance / 2))) ∧
    similarity_threshold ≤ 1 - (1 / 5 : ℚ) ∧
    PatternDetector.detectSimilarDocuments [⟨1, none, "a.txt"⟩]
        [⟨1, 0, "alpha", some "chunk_1_0"⟩] 1 5 (.ok [[(1 : ℚ)]])
        (.ok [(⟨2, none⟩, 1 / 5)]) =
      [⟨2, "Unknown", 1 - 1 / 5, 1⟩] := by
  refine ⟨C1_similarity_conversion.1 (fun t _ => t) [⟨1, none, "f"⟩] "q"
      [⟨"c1", 1, 1, 0, "x"⟩], ?_, ?_⟩
  · norm_num [similarity_threshold]
  · exact C1_similarity_conversion.2 [⟨1, none, "a.txt"⟩]
      [⟨1, 0, "alpha", some "chunk_1_0"⟩] 1 5 [[(1 : ℚ)]] ⟨2, none⟩ (1 / 5)
      ⟨1, none, "a.txt"⟩ (by decide) (by decide) (by decide) (by decide)
      (by decide) (by norm_num [similarity_threshold]) (by decide)

/-! ## Lemmas about the pattern detector network analysis -/

lemma innerFold_some (doc_ids : List ℕ) (i : ℕ) :
    ∀ (sims : List SimilarDoc) (M0 : ℕ → ℕ → ℚ),
      (∀ s ∈ sims, s.document_id ∈ doc_ids ∧
        doc_ids.indexOf s.document_id ≠ i) →
      ∃ M, sims.foldlM (pdMatrixUpdate doc_ids i) M0 = some M ∧
        ∀ a, M a a = M0 a a := by
  intro sims
  induction sims with
  | nil => intro M0 _; exact ⟨M0, rfl, fun a => rfl⟩
  | cons s rest ih =>
    intro M0 h
    have hs := h s (by simp)
    obtain ⟨M, hM, hd⟩ := ih
      (fun a b =>
        if a = i ∧ b = doc_ids.indexOf s.document_id then s.similarity
        else M0 a b)
      (fun s' hs' => h s' (by simp [hs']))
    refine ⟨M, ?_, ?_⟩
    · simpa [List.foldlM_cons, pdMatrixUpdate, hs.1] using hM
    · intro a
      rw [hd]
      rw [if_neg]
      rintro ⟨rfl, hcontra⟩
      exact hs.2 hcontra.symm

lemma outerFold_some (doc_ids : List ℕ) (detect : ℕ → List SimilarDoc) :
    ∀ (pairs : List (ℕ × ℕ)) (M0 : ℕ → ℕ → ℚ),
      (∀ p ∈ pairs, ∀ s ∈ detect p.2, s.document_id ∈ doc_ids ∧
        doc_ids.indexOf s.document_id ≠ p.1) →
      ∃ M, pairs.foldlM
          (fun M p => (detect p.2).foldlM (pdMatrixUpdate doc_ids p.1) M)
          M0 = some M ∧
        ∀ a, M a a = M0 a a := by
  intro pairs
  induction pairs with
  | nil => intro M0 _; exact ⟨M0, rfl, fun a => rfl⟩
  | cons p rest ih =>
    intro M0 h
    obtain ⟨M1, hM1, hd1⟩ := innerFold_some doc_ids p.1 (detect p.2) M0
      (fun s hs => h p (by simp) s hs)
    obtain ⟨M, hM, hd⟩ := ih M1 (fun p' hp' s hs => h p' (by simp [hp']) s hs)
    refine ⟨M, ?_, fun a => (hd a).trans (hd1 a)⟩
    simpa [List.foldlM_cons, hM1] using hM

lemma buildSimilarityMatrix_some (doc_ids : List ℕ)
    (detect : ℕ → List SimilarDoc)
    (hcl : ∀ id ∈ doc_ids, ∀ s ∈ detect id,
      s.document_id ∈ doc_ids ∧ s.document_id ≠ id) :
    ∃ M, buildSimilarityMatrix doc_ids detect = some M ∧ ∀ a, M a a = 0 := by
  have hsafe : ∀ p ∈ doc_ids.enum, ∀ s ∈ detect p.2,
      s.document_id ∈ doc_ids ∧ doc_ids.indexOf s.document_id ≠ p.1 := by
    intro p hp s hs
    have h1 := List.fst_lt_of_mem_enum hp
    have h2 := List.snd_eq_of_mem_enum hp
    have hid : p.2 ∈ doc_ids := by
      rw [h2]
      exact List.getElem_mem _
    have hmem := (hcl p.2 hid s hs).1
    have hne := (hcl p.2 hid s hs).2
    refine ⟨hmem, ?_⟩
    intro hix
    apply hne
    have hlt : doc_ids.indexOf s.document_id < doc_ids.length :=
      List.indexOf_lt_length.mpr hmem
    have hq : doc_ids[doc_ids.indexOf s.document_id]? =
        some s.document_id := by
      rw [List.getElem?_eq_getElem hlt]
      exact congrArg some (List.getElem_indexOf hlt)
    rw [hix] at hq
    have hq2 : doc_ids[p.1]? = some p.2 := by
      rw [List.getElem?_eq_getElem h1]
      exact congrArg some h2.symm
    rw [hq] at hq2
    exact Option.some.inj hq2
  obtain ⟨M, hM, hd⟩ := outerFold_some doc_ids detect doc_ids.enum
    (fun _ _ => (0 : ℚ)) hsafe
  exact ⟨M, hM, fun a => hd a⟩

lemma filter_range_length_eq_card (n : ℕ) (p : ℕ → Prop) [DecidablePred p] :
    ((List.range n).filter fun j => decide (p j)).length =
      ((Finset.range n).filter p).card := by
  induction n with
  | zero => simp
  | succ m ih =>
    rw [List.range_succ, List.filter_append, List.length_append,
      Finset.range_succ, Finset.filter_insert]
    by_cases hp : p m
    · rw [if_pos hp, Finset.card_insert_of_not_mem (by simp)]
      simp [hp, ih]
    · rw [if_neg hp]
      simp [hp, ih]

lemma map_range_sum_eq (n : ℕ) (f : ℕ → ℕ) :
    ((List.range n).map f).sum = ∑ i in Finset.range n, f i := by
  induction n with
  | zero => simp
  | succ m ih =>
    rw [List.range_succ, List.map_append, List.sum_append,
      Finset.sum_range_succ, ih]
    simp

lemma rowCount_eq_card (n : ℕ) (M : ℕ → ℕ → ℚ) (i : ℕ) :
    rowCount n M i =
      ((Finset.range n).filter fun j => similarity_threshold < M i j).card := by
  unfold rowCount
  exact filter_range_length_eq_card n (fun j => similarity_threshold < M i j)

lemma matrixCount_eq_card (n : ℕ) (M : ℕ → ℕ → ℚ) :
    matrixCount n M =
      ((Finset.range n ×ˢ Finset.range n).filter
        fun q => similarity_threshold < M q.1 q.2).card := by
  unfold matrixCount
  rw [map_range_sum_eq, Finset.card_filter, Finset.sum_product]
  refine Finset.sum_congr rfl ?_
  intro i _
  rw [rowCount_eq_card, Finset.card_filter]

lemma pairCount_eq_card (n : ℕ) (M : ℕ → ℕ → ℚ) :
    pairCount n M =
      ((Finset.range n ×ˢ Finset.range n).filter
        fun q => q.1 < q.2 ∧ similarity_threshold < M q.1 q.2).card := by
  unfold pairCount
  rw [map_range_sum_eq, Finset.card_filter, Finset.sum_product]
  refine Finset.sum_congr rfl ?_
  intro i _
  rw [filter_range_length_eq_card n
    (fun j => i < j ∧ similarity_threshold < M i j), Finset.card_filter]

lemma similarity_threshold_pos : (0 : ℚ) < similarity_threshold := by
  norm_num [similarity_threshold]

lemma matrixCount_symm (n : ℕ) (M : ℕ → ℕ → ℚ) (hdiag : ∀ a, M a a = 0)
    (hsym : ∀ a b, M a b = M b a) :
    matrixCount n M = 2 * pairCount n M := by
  rw [matrixCount_eq_card, pairCount_eq_card]
  set P : ℕ × ℕ → Prop := fun q => similarity_threshold < M q.1 q.2 with hP
  set S := (Finset.range n ×ˢ Finset.range n).filter P with hS
  have hdne : ∀ q ∈ S, q.1 ≠ q.2 := by
    intro q hq heq
    have hPq : P q := (Finset.mem_filter.mp hq).2
    rw [hP] at hPq
    rw [heq, hdiag q.2] at hPq
    exact absurd hPq (not_lt.mpr (le_of_lt similarity_threshold_pos))
  have hsplit := Finset.filter_card_add_filter_neg_card_eq_card
    (s := S) (p := fun q => q.1 < q.2)
  have hneg : S.filter (fun q => ¬ q.1 < q.2) =
      S.filter (fun q => q.2 < q.1) := by
    apply Finset.filter_congr
    intro q hq
    have := hdne q hq
    constructor
    · intro h2
      simp only [decide_eq_true_eq] at h2 ⊢
      omega
    · intro h2
      simp only [decide_eq_true_eq] at h2 ⊢
      omega
  have hswap : (S.filter fun q => q.2 < q.1).card =
      (S.filter fun q => q.1 < q.2).card := by
    apply Finset.card_bij (fun q _ => Prod.swap q)
    · intro q hq
      obtain ⟨hqS, hqlt⟩ := Finset.mem_filter.mp hq
      obtain ⟨hqmem, hqP⟩ := Finset.mem_filter.mp hqS
      obtain ⟨hq1, hq2⟩ := Finset.mem_product.mp hqmem
      refine Finset.mem_filter.mpr ⟨Finset.mem_filter.mpr
        ⟨Finset.mem_product.mpr ⟨hq2, hq1⟩, ?_⟩, ?_⟩
      · rw [hP] at hqP ⊢
        simpa [hsym q.2 q.1] using hqP
      · simpa using hqlt
    · intro a ha b hb hab
      exact Prod.swap_injective hab
    · intro b hb
      obtain ⟨hbS, hblt⟩ := Finset.mem_filter.mp hb
      obtain ⟨hbmem, hbP⟩ := Finset.mem_filter.mp hbS
      obtain ⟨hb1, hb2⟩ := Finset.mem_product.mp hbmem
      refine ⟨Prod.swap b, Finset.mem_filter.mpr ⟨Finset.mem_filter.mpr
        ⟨Finset.mem_product.mpr ⟨hb2, hb1⟩, ?_⟩, ?_⟩, by simp⟩
      · rw [hP] at hbP ⊢
        simpa [hsym b.2 b.1] using hbP
      · simpa using hblt
  have hfilter : S.filter (fun q => q.1 < q.2) =
      (Finset.range n ×ˢ Finset.range n).filter
        (fun q => q.1 < q.2 ∧ similarity_threshold < M q.1 q.2) := by
    rw [hS, Finset.filter_filter]
    apply Finset.filter_congr
    intro q _
    rw [hP]
    constructor
    · intro h2
      simp only [decide_eq_true_eq] at h2 ⊢
      tauto
    · intro h2
      simp only [decide_eq_true_eq] at h2 ⊢
      tauto
  rw [hneg, hswap] at hsplit
  rw [← hfilter]
  omega

lemma rowCount_lt (n : ℕ) (M : ℕ → ℕ → ℚ) (i : ℕ) (hin : i < n)
    (hdiag : M i i = 0) : rowCount n M i < n := by
  unfold rowCount
  have : ((List.range n).filter
      fun j => decide (similarity_threshold < M i j)).length <
      (List.range n).length := by
    apply List.length_filter_lt_length_iff_exists.mpr
    refine ⟨i, List.mem_range.mpr hin, ?_⟩
    simp only [decide_eq_true_eq, hdiag]
    exact not_lt.mpr (le_of_lt similarity_threshold_pos)
  simpa using this

lemma matrixCount_le (n : ℕ) (M : ℕ → ℕ → ℚ) (hdiag : ∀ a, M a a = 0) :
    matrixCount n M ≤ n * (n - 1) := by
  unfold matrixCount
  have hb : ∀ x ∈ (List.range n).map (rowCount n M), x ≤ n - 1 := by
    intro x hx
    obtain ⟨i, hi, rfl⟩ := List.mem_map.mp hx
    have hin := List.mem_range.mp hi
    have := rowCount_lt n M i hin (hdiag i)
    omega
  have := List.sum_le_card_nsmul ((List.range n).map (rowCount n M)) (n - 1) hb
  simpa [Nat.mul_comm] using this

/-- C6 (amended): for `analyze_document_network` over the completed
documents, provided every document reported similar is another listed
document (so the matrix build succeeds and its diagonal stays zero): with
fewer than 2 documents, density and connection count are 0; otherwise
`network_density` lies in [0, 1] and equals
`(count of ordered above-threshold matrix entries) / (n(n-1))`, i.e. half
the ordered count over the number of unordered pairs, and
`total_connections` is the ordered count halved (floor).  When the
similarity matrix is symmetric — the only case in which "the similarity of
an unordered pair" is well defined — these equal the claimed
`pairCount / (n(n-1)/2)` and `pairCount` exactly. -/
theorem C6_network_density_contract (documents : List Document)
    (detect : ℕ → List SimilarDoc)
    (hcl : ∀ id ∈ documents.map (fun d => d.id), ∀ s ∈ detect id,
      s.document_id ∈ documents.map (fun d => d.id) ∧ s.document_id ≠ id) :
    (documents.length < 2 →
      (PatternDetector.analyzeDocumentNetwork
        (.ok documents) detect).network_density = 0 ∧
      (PatternDetector.analyzeDocumentNetwork
        (.ok documents) detect).total_connections = 0) ∧
    (2 ≤ documents.length →
      ∃ M, buildSimilarityMatrix (documents.map (fun d => d.id)) detect =
          some M ∧
        0 ≤ (PatternDetector.analyzeDocumentNetwork
          (.ok documents) detect).network_density ∧
        (PatternDetector.analyzeDocumentNetwork
          (.ok documents) detect).network_density ≤ 1 ∧
        (PatternDetector.analyzeDocumentNetwork
            (.ok documents) detect).network_density =
          (matrixCount documents.length M : ℚ) /
            ((documents.length * (documents.length - 1) : ℕ) : ℚ) ∧
        (PatternDetector.analyzeDocumentNetwork
            (.ok documents) detect).total_connections =
          matrixCount documents.length M / 2 ∧
        ((∀ a b, M a b = M b a) →
          (PatternDetector.analyzeDocumentNetwork
              (.ok documents) detect).network_density =
            (pairCount documents.length M : ℚ) /
              (((documents.length * (documents.length - 1) : ℕ) : ℚ) / 2) ∧
          (PatternDetector.analyzeDocumentNetwork
              (.ok documents) detect).total_connections =
            pairCount documents.length M)) := by
  constructor
  · intro hlt
    constructor
    · unfold PatternDetector.analyzeDocumentNetwork
      dsimp only
      rw [if_pos hlt]
    · unfold PatternDetector.analyzeDocumentNetwork
      dsimp only
      rw [if_pos hlt]
  · intro h2
    obtain ⟨M, hM, hdiag⟩ :=
      buildSimilarityMatrix_some (documents.map (fun d => d.id)) detect hcl
    refine ⟨M, hM, ?_⟩
    have hn0 : (0 : ℚ) <
        ((documents.length * (documents.length - 1) : ℕ) : ℚ) := by
      have h1 : 0 < documents.length * (documents.length - 1) :=
        Nat.mul_pos (by omega) (by omega)
      exact_mod_cast h1
    have hpos : (0 : ℚ) <
        ((documents.length * (documents.length - 1) : ℕ) : ℚ) / 2 := by
      linarith
    have hden : (PatternDetector.analyzeDocumentNetwork
        (.ok documents) detect).network_density =
        ((matrixCount documents.length M : ℚ) / 2) /
          (((documents.length * (documents.length - 1) : ℕ) : ℚ) / 2) := by
      unfold PatternDetector.analyzeDocumentNetwork
      dsimp only
      rw [if_neg (by omega), hM]
      dsimp only
      rw [if_pos hpos]
    have hconn : (PatternDetector.analyzeDocumentNetwork
        (.ok documents) detect).total_connections =
        matrixCount documents.length M / 2 := by
      unfold PatternDetector.analyzeDocumentNetwork
      dsimp only
      rw [if_neg (by omega), hM]
    have hmcle := matrixCount_le documents.length M hdiag
    have hmcleQ : (matrixCount documents.length M : ℚ) ≤
        ((documents.length * (documents.length - 1) : ℕ) : ℚ) := by
      exact_mod_cast hmcle
    refine ⟨?_, ?_, ?_, hconn, ?_⟩
    · rw [hden]
      positivity
    · rw [hden]
      rw [div_le_one hpos]
      linarith
    · rw [hden]
      field_simp
    · intro hsym
      have hmc : matrixCount documents.length M =
          2 * pairCount documents.length M :=
        matrixCount_symm documents.length M hdiag hsym
      constructor
      · rw [hden, hmc]
        push_cast
        field_simp
      · rw [hconn, hmc]
        omega

/-- C6 counterexample: the similarity matrix `analyze_document_network`
builds need not be symmetric — here document 1 sees document 2 above the
threshold but not vice versa.  The code then reports
`network_density = (1/2)/1 = 1/2` and `total_connections = int(1/2) = 0`
over 2 documents (1 possible unordered pair).  No natural number of
above-threshold unordered pairs satisfies the claim: it would force
`network_density = total_connections / (n(n-1)/2) = 0/1 = 0 ≠ 1/2`. -/
theorem C6_counterexample :
    (PatternDetector.analyzeDocumentNetwork (.ok networkDocsTwo)
      detectOneWay).network_density = 1 / 2 ∧
    (PatternDetector.analyzeDocumentNetwork (.ok networkDocsTwo)
      detectOneWay).total_connections = 0 ∧
    (PatternDetector.analyzeDocumentNetwork (.ok networkDocsTwo)
      detectOneWay).total_documents = 2 ∧
    ¬ ((PatternDetector.analyzeDocumentNetwork (.ok networkDocsTwo)
        detectOneWay).network_density =
      ((PatternDetector.analyzeDocumentNetwork (.ok networkDocsTwo)
          detectOneWay).total_connections : ℚ) /
        (((2 * (2 - 1) : ℕ) : ℚ) / 2)) := by
  refine ⟨?_, ?_, ?_, ?_⟩
  · simp only [PatternDetector.analyzeDocumentNetwork, buildSimilarityMatrix,
      pdMatrixUpdate, rowCount, matrixCount, similarity_threshold,
      networkDocsTwo, detectOneWay, List.foldlM, List.enum, List.enumFrom,
      List.map, List.filter, List.range, List.range.loop, List.sum]
    norm_num
  · simp only [PatternDetector.analyzeDocumentNetwork, buildSimilarityMatrix,
      pdMatrixUpdate, rowCount, matrixCount, similarity_threshold,
      networkDocsTwo, detectOneWay, List.foldlM, List.enum, List.enumFrom,
      List.map, List.filter, List.range, List.range.loop, List.sum]
    norm_num
  · simp only [PatternDetector.analyzeDocumentNetwork, buildSimilarityMatrix,
      pdMatrixUpdate, rowCount, matrixCount, similarity_threshold,
      networkDocsTwo, detectOneWay, List.foldlM, List.enum, List.enumFrom,
      List.map, List.filter, List.range, List.range.loop, List.sum]
    norm_num
  · simp only [PatternDetector.analyzeDocumentNetwork, buildSimilarityMatrix,
      pdMatrixUpdate, rowCount, matrixCount, similarity_threshold,
      networkDocsTwo, detectOneWay, List.foldlM, List.enum, List.enumFrom,
      List.map, List.filter, List.range, List.range.loop, List.sum]
    norm_num

/-- Witness for C6 (amended) at the mutual two-document corpus: the
hypothesis holds and the contract follows at that concrete input. -/
theorem C6_witness :
    (∀ id ∈ networkDocsTwo.map (fun d => d.id), ∀ s ∈ detectMutual id,
      s.document_id ∈ networkDocsTwo.map (fun d => d.id) ∧
      s.document_id ≠ id) ∧
    ((networkDocsTwo.length < 2 →
      (PatternDetector.analyzeDocumentNetwork
        (.ok networkDocsTwo) detectMutual).network_density = 0 ∧
      (PatternDetector.analyzeDocumentNetwork
        (.ok networkDocsTwo) detectMutual).total_connections = 0) ∧
    (2 ≤ networkDocsTwo.length →
      ∃ M, buildSimilarityMatrix (networkDocsTwo.map (fun d => d.id))
          detectMutual = some M ∧
        0 ≤ (PatternDetector.analyzeDocumentNetwork
          (.ok networkDocsTwo) detectMutual).network_density ∧
        (PatternDetector.analyzeDocumentNetwork
          (.ok networkDocsTwo) detectMutual).network_density ≤ 1 ∧
        (PatternDetector.analyzeDocumentNetwork
            (.ok networkDocsTwo) detectMutual).network_density =
          (matrixCount networkDocsTwo.length M : ℚ) /
            ((networkDocsTwo.length * (networkDocsTwo.length - 1) : ℕ) : ℚ) ∧
        (PatternDetector.analyzeDocumentNetwork
            (.ok networkDocsTwo) detectMutual).total_connections =
          matrixCount networkDocsTwo.length M / 2 ∧
        ((∀ a b, M a b = M b a) →
          (PatternDetector.analyzeDocumentNetwork
              (.ok networkDocsTwo) detectMutual).network_density =
            (pairCount networkDocsTwo.length M : ℚ) /
              (((networkDocsTwo.length * (networkDocsTwo.length - 1) : ℕ) :
                ℚ) / 2) ∧
          (PatternDetector.analyzeDocumentNetwork
              (.ok networkDocsTwo) detectMutual).total_connections =
            pairCount networkDocsTwo.length M))) := by
  have hcl : ∀ id ∈ networkDocsTwo.map (fun d => d.id),
      ∀ s ∈ detectMutual id,
      s.document_id ∈ networkDocsTwo.map (fun d => d.id) ∧
      s.document_id ≠ id := by
    intro id hid s hs
    simp only [networkDocsTwo, List.map, List.mem_cons, List.not_mem_nil,
      or_false] at hid
    rcases hid with rfl | rfl <;> simp only [detectMutual] at hs <;>
      norm_num at hs <;> subst hs <;> simp [networkDocsTwo]
  exact ⟨hcl, C6_network_density_contract networkDocsTwo detectMutual hcl⟩
